import Mathlib

/-!
Shallow embedding of the toil-scripts germline variant helpers:
`src/toil_scripts/gatk_germline/hard_filter.py` and
`src/toil_scripts/tools/variant_annotation.py`.

Toil promises (`job.rv()`, `PromisedRequirement`) are modelled by passing the
resolved values explicitly: a `FileID` carries the one attribute the code
reads (`.size`), and an `HFResolution` record supplies the resolved return
value of each wrapped job.  Python dictionaries are modelled as association
lists with Python's `dict.update` semantics, and `os.path.join` is modelled
faithfully (an absolute second component discards the first).
-/

namespace ToilScripts

/-- A resolved Toil file-store handle; the pipeline code only reads `.size`. -/
structure FileID where
  size : Nat
deriving DecidableEq

/-- `posixpath.join` restricted to two components, as `os.path.join` behaves on
Linux: if `b` is absolute the result is `b`; otherwise `a` and `b` are joined,
inserting a slash unless `a` is empty or already ends in one. -/
def os_path_join (a b : String) : String :=
  if b.data.head? = some '/' then b
  else if a = "" then a ++ b
  else if a.data.getLast? = some '/' then a ++ b
  else (a ++ "/") ++ b

/-- Configuration fields of `hard_filter_pipeline` that the function reads
(`config.genome_fasta`, `config.genome_fai`, `config.genome_dict`,
`config.xmx`, `config.output_dir`, `config.suffix`, `config.ssec`). -/
structure HFConfig where
  genome_fasta : FileID
  genome_fai : FileID
  genome_dict : FileID
  xmx : Nat
  output_dir : String
  suffix : String
  ssec : String
deriving DecidableEq

/-- Resolved values of the promises (`.rv()`) of the five wrapped jobs created
by `hard_filter_pipeline`: each is the VCF file produced by that job. -/
structure HFResolution where
  select_snps_rv : FileID
  select_indels_rv : FileID
  snp_filter_rv : FileID
  indel_filter_rv : FileID
  combine_vcfs_rv : FileID
deriving DecidableEq

/-- The jobs appearing in `hard_filter_pipeline`; `root` is the `job` argument
the child jobs are attached to. -/
inductive JobName where
  | root
  | select_snps
  | select_indels
  | snp_filter
  | indel_filter
  | combine_vcfs
  | output_vcf
deriving DecidableEq

/-- The lambda of the `select_variants_disk` `PromisedRequirement`:
`lambda vcf, ref_size: 2 * vcf.size + ref_size`. -/
def select_variants_disk_lambda (vcf : FileID) (ref_size : Nat) : Nat :=
  2 * vcf.size + ref_size

/-- The lambda of the `snp_filter_disk` `PromisedRequirement`:
`lambda vcf, ref_size: 2 * vcf.size + ref_size`. -/
def snp_filter_disk_lambda (vcf : FileID) (ref_size : Nat) : Nat :=
  2 * vcf.size + ref_size

/-- The lambda of the `indel_filter_disk` `PromisedRequirement`:
`lambda vcf, ref_size: 2 * vcf.size + ref_size`. -/
def indel_filter_disk_lambda (vcf : FileID) (ref_size : Nat) : Nat :=
  2 * vcf.size + ref_size

/-- The lambda of the `combine_vcfs_disk` `PromisedRequirement`:
`lambda vcf1, vcf2, ref_size: 2 * (vcf1.size + vcf2.size) + ref_size`,
applied to `indel_filter.rv()`, `snp_filter.rv()`, `genome_ref_size`. -/
def combine_vcfs_disk_lambda (vcf1 vcf2 : FileID) (ref_size : Nat) : Nat :=
  2 * (vcf1.size + vcf2.size) + ref_size

/-- The lambda of the output job's `PromisedRequirement`:
`lambda x: x.size`, applied to `combine_vcfs.rv()`. -/
def output_vcf_disk_lambda (x : FileID) : Nat :=
  x.size

/-- Observable result of `hard_filter_pipeline`: the disk requirement attached
to each wrapped job (with promises resolved), the parent/child edges
registered via `addChild` in call order, the output location, and the value
the function returns (`combine_vcfs.rv()`). -/
structure HFPipelineResult where
  select_snps_disk : Nat
  select_indels_disk : Nat
  snp_filter_disk : Nat
  indel_filter_disk : Nat
  combine_vcfs_disk : Nat
  output_vcf_disk : Nat
  edges : List (JobName × JobName)
  output_dir : String
  output_filename : String
  ret : FileID
deriving DecidableEq

/-- `hard_filter_pipeline(job, uuid, vcf_id, config)` from
`gatk_germline/hard_filter.py`, with every `PromisedRequirement` evaluated at
the resolution `res` of the wrapped jobs' promises. -/
def hard_filter_pipeline (uuid : String) (vcf_id : FileID) (config : HFConfig)
    (res : HFResolution) : HFPipelineResult :=
  let genome_ref_size :=
    config.genome_fasta.size + config.genome_fai.size + config.genome_dict.size
  let select_variants_disk := select_variants_disk_lambda vcf_id genome_ref_size
  let snp_filter_disk := snp_filter_disk_lambda res.select_snps_rv genome_ref_size
  let indel_filter_disk := indel_filter_disk_lambda res.select_indels_rv genome_ref_size
  let combine_vcfs_disk :=
    combine_vcfs_disk_lambda res.indel_filter_rv res.snp_filter_rv genome_ref_size
  { select_snps_disk := select_variants_disk
    select_indels_disk := select_variants_disk
    snp_filter_disk := snp_filter_disk
    indel_filter_disk := indel_filter_disk
    combine_vcfs_disk := combine_vcfs_disk
    output_vcf_disk := output_vcf_disk_lambda res.combine_vcfs_rv
    edges := [(JobName.root, JobName.select_snps),
              (JobName.root, JobName.select_indels),
              (JobName.select_snps, JobName.snp_filter),
              (JobName.snp_filter, JobName.combine_vcfs),
              (JobName.select_indels, JobName.indel_filter),
              (JobName.indel_filter, JobName.combine_vcfs),
              (JobName.combine_vcfs, JobName.output_vcf)]
    output_dir := os_path_join config.output_dir uuid
    output_filename := ((uuid ++ ".hard_filter") ++ config.suffix) ++ ".vcf"
    ret := res.combine_vcfs_rv }

/-- C1: for every input VCF of size `v` and genome reference files of sizes
`f`, `i`, `d`, the SelectVariants disk requirement is `2*v + (f+i+d)` and the
two VariantFiltration disk requirements are `2*v' + (f+i+d)` where `v'` is the
size of that stage's input VCF, the same formula on both branches. -/
theorem C1_select_and_filter_disk (uuid : String) (vcf_id : FileID)
    (config : HFConfig) (res : HFResolution) :
    (hard_filter_pipeline uuid vcf_id config res).select_snps_disk =
      2 * vcf_id.size +
        (config.genome_fasta.size + config.genome_fai.size + config.genome_dict.size) ∧
    (hard_filter_pipeline uuid vcf_id config res).select_indels_disk =
      2 * vcf_id.size +
        (config.genome_fasta.size + config.genome_fai.size + config.genome_dict.size) ∧
    (hard_filter_pipeline uuid vcf_id config res).snp_filter_disk =
      2 * res.select_snps_rv.size +
        (config.genome_fasta.size + config.genome_fai.size + config.genome_dict.size) ∧
    (hard_filter_pipeline uuid vcf_id config res).indel_filter_disk =
      2 * res.select_indels_rv.size +
        (config.genome_fasta.size + config.genome_fai.size + config.genome_dict.size) := by
  refine ⟨rfl, rfl, rfl, rfl⟩

/-- C2: the parent/child edges registered by `hard_filter_pipeline` are
exactly root→select-SNPs, root→select-INDELs, select-SNPs→SNP-filter,
select-INDELs→INDEL-filter, SNP-filter→combine, INDEL-filter→combine and
combine→output, with no other edges added. -/
theorem C2_edges (uuid : String) (vcf_id : FileID) (config : HFConfig)
    (res : HFResolution) :
    List.Perm (hard_filter_pipeline uuid vcf_id config res).edges
      [(JobName.root, JobName.select_snps),
       (JobName.root, JobName.select_indels),
       (JobName.select_snps, JobName.snp_filter),
       (JobName.select_indels, JobName.indel_filter),
       (JobName.snp_filter, JobName.combine_vcfs),
       (JobName.indel_filter, JobName.combine_vcfs),
       (JobName.combine_vcfs, JobName.output_vcf)] := by
  show List.Perm [(JobName.root, JobName.select_snps),
       (JobName.root, JobName.select_indels),
       (JobName.select_snps, JobName.snp_filter),
       (JobName.snp_filter, JobName.combine_vcfs),
       (JobName.select_indels, JobName.indel_filter),
       (JobName.indel_filter, JobName.combine_vcfs),
       (JobName.combine_vcfs, JobName.output_vcf)] _
  decide

/-- C5: the CombineVariants disk requirement is `2*(v1 + v2) + r`, where `v1`
is the filtered INDEL VCF size, `v2` the filtered SNP VCF size and `r` the
genome reference total size, and the output job's disk requirement is exactly
the size of the combined VCF. -/
theorem C5_combine_and_output_disk (uuid : String) (vcf_id : FileID)
    (config : HFConfig) (res : HFResolution) :
    (hard_filter_pipeline uuid vcf_id config res).combine_vcfs_disk =
      2 * (res.indel_filter_rv.size + res.snp_filter_rv.size) +
        (config.genome_fasta.size + config.genome_fai.size + config.genome_dict.size) ∧
    (hard_filter_pipeline uuid vcf_id config res).output_vcf_disk =
      res.combine_vcfs_rv.size := by
  exact ⟨rfl, rfl⟩

/-- C7: the disk-requirement computation is deterministic — two evaluations of
`hard_filter_pipeline` on inputs whose file sizes agree produce the same disk
requirement for every job, whatever the remaining inputs (uuid, paths, memory
setting) are. -/
theorem C7_disk_deterministic (uuid uuid₂ : String) (vcf_id vcf_id₂ : FileID)
    (config config₂ : HFConfig) (res res₂ : HFResolution)
    (hv : vcf_id.size = vcf_id₂.size)
    (hf : config.genome_fasta.size = config₂.genome_fasta.size)
    (hi : config.genome_fai.size = config₂.genome_fai.size)
    (hd : config.genome_dict.size = config₂.genome_dict.size)
    (h1 : res.select_snps_rv.size = res₂.select_snps_rv.size)
    (h2 : res.select_indels_rv.size = res₂.select_indels_rv.size)
    (h3 : res.snp_filter_rv.size = res₂.snp_filter_rv.size)
    (h4 : res.indel_filter_rv.size = res₂.indel_filter_rv.size)
    (h5 : res.combine_vcfs_rv.size = res₂.combine_vcfs_rv.size) :
    (hard_filter_pipeline uuid vcf_id config res).select_snps_disk =
      (hard_filter_pipeline uuid₂ vcf_id₂ config₂ res₂).select_snps_disk ∧
    (hard_filter_pipeline uuid vcf_id config res).select_indels_disk =
      (hard_filter_pipeline uuid₂ vcf_id₂ config₂ res₂).select_indels_disk ∧
    (hard_filter_pipeline uuid vcf_id config res).snp_filter_disk =
      (hard_filter_pipeline uuid₂ vcf_id₂ config₂ res₂).snp_filter_disk ∧
    (hard_filter_pipeline uuid vcf_id config res).indel_filter_disk =
      (hard_filter_pipeline uuid₂ vcf_id₂ config₂ res₂).indel_filter_disk ∧
    (hard_filter_pipeline uuid vcf_id config res).combine_vcfs_disk =
      (hard_filter_pipeline uuid₂ vcf_id₂ config₂ res₂).combine_vcfs_disk ∧
    (hard_filter_pipeline uuid vcf_id config res).output_vcf_disk =
      (hard_filter_pipeline uuid₂ vcf_id₂ config₂ res₂).output_vcf_disk := by
  simp only [hard_filter_pipeline, select_variants_disk_lambda,
    snp_filter_disk_lambda, indel_filter_disk_lambda, combine_vcfs_disk_lambda,
    output_vcf_disk_lambda]
  rw [hv, hf, hi, hd, h1, h2, h3, h4, h5]
  exact ⟨rfl, rfl, rfl, rfl, rfl, rfl⟩

/-- Witness for C7 at concrete inputs: two configurations that differ in every
non-size field but agree on all file sizes get identical disk requirements. -/
theorem C7_disk_deterministic_witness :
    (hard_filter_pipeline "sampleA" ⟨100⟩
        ⟨⟨10⟩, ⟨2⟩, ⟨3⟩, 8, "/out/a", ".a", "keyA"⟩
        ⟨⟨40⟩, ⟨20⟩, ⟨35⟩, ⟨18⟩, ⟨50⟩⟩).select_snps_disk =
      (hard_filter_pipeline "sampleB" ⟨100⟩
        ⟨⟨10⟩, ⟨2⟩, ⟨3⟩, 16, "/out/b", ".b", "keyB"⟩
        ⟨⟨40⟩, ⟨20⟩, ⟨35⟩, ⟨18⟩, ⟨50⟩⟩).select_snps_disk ∧
    (hard_filter_pipeline "sampleA" ⟨100⟩
        ⟨⟨10⟩, ⟨2⟩, ⟨3⟩, 8, "/out/a", ".a", "keyA"⟩
        ⟨⟨40⟩, ⟨20⟩, ⟨35⟩, ⟨18⟩, ⟨50⟩⟩).select_indels_disk =
      (hard_filter_pipeline "sampleB" ⟨100⟩
        ⟨⟨10⟩, ⟨2⟩, ⟨3⟩, 16, "/out/b", ".b", "keyB"⟩
        ⟨⟨40⟩, ⟨20⟩, ⟨35⟩, ⟨18⟩, ⟨50⟩⟩).select_indels_disk ∧
    (hard_filter_pipeline "sampleA" ⟨100⟩
        ⟨⟨10⟩, ⟨2⟩, ⟨3⟩, 8, "/out/a", ".a", "keyA"⟩
        ⟨⟨40⟩, ⟨20⟩, ⟨35⟩, ⟨18⟩, ⟨50⟩⟩).snp_filter_disk =
      (hard_filter_pipeline "sampleB" ⟨100⟩
        ⟨⟨10⟩, ⟨2⟩, ⟨3⟩, 16, "/out/b", ".b", "keyB"⟩
        ⟨⟨40⟩, ⟨20⟩, ⟨35⟩, ⟨18⟩, ⟨50⟩⟩).snp_filter_disk ∧
    (hard_filter_pipeline "sampleA" ⟨100⟩
        ⟨⟨10⟩, ⟨2⟩, ⟨3⟩, 8, "/out/a", ".a", "keyA"⟩
        ⟨⟨40⟩, ⟨20⟩, ⟨35⟩, ⟨18⟩, ⟨50⟩⟩).indel_filter_disk =
      (hard_filter_pipeline "sampleB" ⟨100⟩
        ⟨⟨10⟩, ⟨2⟩, ⟨3⟩, 16, "/out/b", ".b", "keyB"⟩
        ⟨⟨40⟩, ⟨20⟩, ⟨35⟩, ⟨18⟩, ⟨50⟩⟩).indel_filter_disk ∧
    (hard_filter_pipeline "sampleA" ⟨100⟩
        ⟨⟨10⟩, ⟨2⟩, ⟨3⟩, 8, "/out/a", ".a", "keyA"⟩
        ⟨⟨40⟩, ⟨20⟩, ⟨35⟩, ⟨18⟩, ⟨50⟩⟩).combine_vcfs_disk =
      (hard_filter_pipeline "sampleB" ⟨100⟩
        ⟨⟨10⟩, ⟨2⟩, ⟨3⟩, 16, "/out/b", ".b", "keyB"⟩
        ⟨⟨40⟩, ⟨20⟩, ⟨35⟩, ⟨18⟩, ⟨50⟩⟩).combine_vcfs_disk ∧
    (hard_filter_pipeline "sampleA" ⟨100⟩
        ⟨⟨10⟩, ⟨2⟩, ⟨3⟩, 8, "/out/a", ".a", "keyA"⟩
        ⟨⟨40⟩, ⟨20⟩, ⟨35⟩, ⟨18⟩, ⟨50⟩⟩).output_vcf_disk =
      (hard_filter_pipeline "sampleB" ⟨100⟩
        ⟨⟨10⟩, ⟨2⟩, ⟨3⟩, 16, "/out/b", ".b", "keyB"⟩
        ⟨⟨40⟩, ⟨20⟩, ⟨35⟩, ⟨18⟩, ⟨50⟩⟩).output_vcf_disk :=
  C7_disk_deterministic "sampleA" "sampleB" ⟨100⟩ ⟨100⟩
    ⟨⟨10⟩, ⟨2⟩, ⟨3⟩, 8, "/out/a", ".a", "keyA"⟩
    ⟨⟨10⟩, ⟨2⟩, ⟨3⟩, 16, "/out/b", ".b", "keyB"⟩
    ⟨⟨40⟩, ⟨20⟩, ⟨35⟩, ⟨18⟩, ⟨50⟩⟩ ⟨⟨40⟩, ⟨20⟩, ⟨35⟩, ⟨18⟩, ⟨50⟩⟩
    rfl rfl rfl rfl rfl rfl rfl rfl rfl

/-- A Python `dict` with string keys and values, modelled as an association
list with unique keys; only the key→value map and an iteration order are
observable. -/
def dict_keys (d : List (String × String)) : List String :=
  d.map Prod.fst

/-- `d[k]` as a total lookup: the value at the first entry whose key is `k`. -/
def dict_get (d : List (String × String)) (k : String) : Option String :=
  match d with
  | [] => none
  | kv :: rest => if kv.1 = k then some kv.2 else dict_get rest k

/-- `d[k] = v`: overwrite the entry for `k` when present, append otherwise. -/
def dict_set (d : List (String × String)) (k v : String) :
    List (String × String) :=
  if k ∈ dict_keys d then
    d.map (fun kv => if kv.1 = k then (k, v) else kv)
  else d ++ [(k, v)]

/-- Python `d.update(u)`: set every entry of `u` in `d`, in order. -/
def dict_update (d u : List (String × String)) : List (String × String) :=
  u.foldl (fun acc kv => dict_set acc kv.1 kv.2) d

/-- The Toil file store as the task functions use it: `writeGlobalFile` maps a
local path to the FileStoreID the store assigns it. -/
structure FileStore where
  writeGlobalFile : String → String

/-- Observable result of `gatk_genotype_gvcfs`: the `inputs` dictionary after
`inputs.update(gvcfs)` (each entry is read into the working directory under
its key), the docker command, and the returned FileStoreID. -/
structure GenotypeGVCFsResult where
  staged : List (String × String)
  command : List String
  ret : String

/-- `gatk_genotype_gvcfs(job, gvcfs, ref, fai, ref_dict, annotations,
emit_threshold, call_threshold, unsafe_mode)` from
`tools/variant_annotation.py`.  `gvcfs` is the sample dictionary,
`annotations` is `None` or a list, and `emit_conf`/`call_conf` stand for the
`str(...)` renderings of the two float thresholds.  `work_dir` is the
temporary directory `job.fileStore.getLocalTempDir()` returned. -/
def gatk_genotype_gvcfs (fs : FileStore) (work_dir : String)
    (gvcfs : List (String × String)) (ref fai ref_dict : String)
    (annotations : Option (List String)) (emit_conf call_conf : String)
    (unsafe_mode : Bool) : GenotypeGVCFsResult :=
  let inputs :=
    dict_update [("genome.fa", ref), ("genome.fa.fai", fai), ("genome.dict", ref_dict)]
      gvcfs
  let command :=
    ["-T", "GenotypeGVCFs",
     "-R", "/data/genome.fa",
     "--out", "genotyped.vcf",
     "-stand_emit_conf", emit_conf,
     "-stand_call_conf", call_conf]
    ++ (match annotations with
        | none => []
        | some anns => (anns.map (fun a => ["-A", a])).flatten)
    ++ ((dict_keys gvcfs).map (fun uuid => ["--variant", os_path_join "/data" uuid])).flatten
    ++ (if unsafe_mode then ["-U", "ALLOW_SEQ_DICT_INCOMPATIBILITY"] else [])
  { staged := inputs
    command := command
    ret := fs.writeGlobalFile (os_path_join work_dir "genotyped.vcf") }

/-- Observable result of `run_oncotator`: the resolved `--db-dir` argument,
the docker command, and the returned FileStoreID. -/
structure OncotatorResult where
  staged : List (String × String)
  db_dir : String
  command : List String
  ret : String

/-- `run_oncotator(job, vcf_id, oncotator_db)` from
`tools/variant_annotation.py`.  The downloaded database lands at
`os.path.join(work_dir, 'oncotator_db')`; `tar_members` is `none` when
`tarfile.is_tarfile` is false on that file and otherwise the member names of
the archive, whose first entry `tar.getmembers()[0].name` replaces the
database path (`none` overall models the `IndexError` on an empty archive). -/
def run_oncotator (fs : FileStore) (work_dir : String)
    (vcf_id oncotator_db : String) (tar_members : Option (List String)) :
    Option OncotatorResult :=
  let db_path := os_path_join work_dir "oncotator_db"
  let db_resolved : Option String :=
    match tar_members with
    | none => some db_path
    | some members => members.head?
  match db_resolved with
  | none => none
  | some db =>
    some { staged := [("input.vcf", vcf_id), ("oncotator_db", oncotator_db)]
           db_dir := db
           command := ["-i", "VCF",
                       "-o", "VCF",
                       "--db-dir", db,
                       "input.vcf",
                       "annotated.vcf",
                       "hg19"]
           ret := fs.writeGlobalFile (os_path_join work_dir "annotated.vcf") }

/-- Membership in the keys of a cons cell. -/
theorem mem_dict_keys_cons (kv : String × String) (rest : List (String × String))
    (k : String) : k ∈ dict_keys (kv :: rest) ↔ k = kv.1 ∨ k ∈ dict_keys rest := by
  simp [dict_keys]

/-- A key absent from a dictionary looks up to `none`. -/
theorem dict_get_eq_none_of_not_mem (d : List (String × String)) (k : String)
    (h : k ∉ dict_keys d) : dict_get d k = none := by
  induction d with
  | nil => rfl
  | cons kv rest ih =>
    have h1 : kv.1 ≠ k := fun hc => h ((mem_dict_keys_cons kv rest k).mpr (Or.inl hc.symm))
    have h2 : k ∉ dict_keys rest :=
      fun hc => h ((mem_dict_keys_cons kv rest k).mpr (Or.inr hc))
    simpa [dict_get, if_neg h1] using ih h2

/-- Lookup distributes over list append: the left dictionary wins. -/
theorem dict_get_append (d tail : List (String × String)) (k : String) :
    dict_get (d ++ tail) k =
      match dict_get d k with
      | some w => some w
      | none => dict_get tail k := by
  induction d with
  | nil => rfl
  | cons kv rest ih =>
    by_cases h1 : kv.1 = k
    · simp [dict_get, if_pos h1]
    · simp only [List.cons_append, dict_get, if_neg h1]
      exact ih

/-- The overwrite map of `dict_set` sends an existing key `k` to `v`. -/
theorem dict_get_map_set_self (d : List (String × String)) (k v : String)
    (h : k ∈ dict_keys d) :
    dict_get (d.map (fun kv => if kv.1 = k then (k, v) else kv)) k = some v := by
  induction d with
  | nil => cases h
  | cons kv rest ih =>
    by_cases h1 : kv.1 = k
    · simp [List.map_cons, if_pos h1, dict_get]
    · have h2 : k ∈ dict_keys rest := by
        rcases (mem_dict_keys_cons kv rest k).mp h with hc | hc
        · exact absurd hc.symm h1
        · exact hc
      simp only [List.map_cons, if_neg h1, dict_get, if_neg h1]
      exact ih h2

/-- The overwrite map of `dict_set` at key `a` leaves other keys unchanged. -/
theorem dict_get_map_set_ne (d : List (String × String)) (k a v : String)
    (h : a ≠ k) :
    dict_get (d.map (fun kv => if kv.1 = a then (a, v) else kv)) k = dict_get d k := by
  induction d with
  | nil => rfl
  | cons kv rest ih =>
    by_cases h1 : kv.1 = a
    · have h2 : kv.1 ≠ k := fun hc => h (h1.symm.trans hc)
      simp only [List.map_cons, if_pos h1, dict_get, if_neg h, if_neg h2]
      exact ih
    · simp only [List.map_cons, if_neg h1, dict_get]
      by_cases h2 : kv.1 = k
      · rw [if_pos h2, if_pos h2]
      · rw [if_neg h2, if_neg h2]
        exact ih

/-- Setting key `k` makes `k` map to `v`. -/
theorem dict_get_dict_set_self (d : List (String × String)) (k v : String) :
    dict_get (dict_set d k v) k = some v := by
  unfold dict_set
  by_cases hk : k ∈ dict_keys d
  · rw [if_pos hk]
    exact dict_get_map_set_self d k v hk
  · rw [if_neg hk, dict_get_append, dict_get_eq_none_of_not_mem d k hk]
    simp [dict_get]

/-- Setting key `a` leaves the value of any other key `k` unchanged. -/
theorem dict_get_dict_set_ne (d : List (String × String)) (k a v : String)
    (h : a ≠ k) : dict_get (dict_set d a v) k = dict_get d k := by
  unfold dict_set
  by_cases ha : a ∈ dict_keys d
  · rw [if_pos ha]
    exact dict_get_map_set_ne d k a v h
  · rw [if_neg ha, dict_get_append]
    cases hd : dict_get d k with
    | some w => rfl
    | none => simp [dict_get, if_neg h]

/-- `dict.update` with a dictionary not containing key `k` leaves `k`'s value
unchanged. -/
theorem dict_get_dict_update_not_mem (u : List (String × String)) :
    ∀ (d : List (String × String)) (k : String), k ∉ dict_keys u →
      dict_get (dict_update d u) k = dict_get d k := by
  induction u with
  | nil => intro d k _; rfl
  | cons kv rest ih =>
    intro d k h
    have h1 : kv.1 ≠ k :=
      fun hc => h ((mem_dict_keys_cons kv rest k).mpr (Or.inl hc.symm))
    have h2 : k ∉ dict_keys rest :=
      fun hc => h ((mem_dict_keys_cons kv rest k).mpr (Or.inr hc))
    calc dict_get (dict_update (dict_set d kv.1 kv.2) rest) k
        = dict_get (dict_set d kv.1 kv.2) k := ih (dict_set d kv.1 kv.2) k h2
      _ = dict_get d k := dict_get_dict_set_ne d k kv.1 kv.2 h1

/-- `dict.update` with a dictionary whose keys are distinct and which maps `k`
to `v` makes `k` map to `v`. -/
theorem dict_get_dict_update_mem (u : List (String × String)) :
    ∀ (d : List (String × String)) (k v : String),
      (dict_keys u).Nodup → (k, v) ∈ u →
      dict_get (dict_update d u) k = some v := by
  induction u with
  | nil => intro d k v _ hm; cases hm
  | cons kv rest ih =>
    intro d k v hnd hm
    have hnd2 : (dict_keys rest).Nodup ∧ kv.1 ∉ dict_keys rest := by
      have : dict_keys (kv :: rest) = kv.1 :: dict_keys rest := rfl
      rw [this] at hnd
      exact ⟨(List.nodup_cons.mp hnd).2, (List.nodup_cons.mp hnd).1⟩
    rcases List.mem_cons.mp hm with h | h
    · have hk : kv.1 = k := by rw [← h]
      have hv : kv.2 = v := by rw [← h]
      have hrest : k ∉ dict_keys rest := hk ▸ hnd2.2
      calc dict_get (dict_update (dict_set d kv.1 kv.2) rest) k
          = dict_get (dict_set d kv.1 kv.2) k :=
            dict_get_dict_update_not_mem rest (dict_set d kv.1 kv.2) k hrest
        _ = some v := by rw [hk, hv]; exact dict_get_dict_set_self d k v
    · exact ih (dict_set d kv.1 kv.2) k v hnd2.1 h

/-- For a path component not beginning with a slash, joining it under
`/data` is plain concatenation with a separating slash. -/
theorem os_path_join_data_slash (b : String) (h : ¬ b.data.head? = some '/') :
    os_path_join "/data" b = "/data/" ++ b := by
  have h2 : ¬ ("/data" : String) = "" := by decide
  have h3 : ¬ ("/data" : String).data.getLast? = some '/' := by decide
  unfold os_path_join
  rw [if_neg h, if_neg h2, if_neg h3]
  exact rfl

/-- C3 (counterexample to the claim as stated): for a sample identifier that
begins with a slash, `os.path.join('/data', uuid)` discards `/data`, so the
`--variant` argument is the identifier itself and not `/data/<uuid>`. -/
theorem C3_command_counterexample :
    (gatk_genotype_gvcfs ⟨fun p => p⟩ "/tmp" [("/abs.g.vcf", "fid")] "r" "i" "d"
        none "10.0" "30.0" false).command =
      ["-T", "GenotypeGVCFs", "-R", "/data/genome.fa", "--out", "genotyped.vcf",
       "-stand_emit_conf", "10.0", "-stand_call_conf", "30.0",
       "--variant", "/abs.g.vcf"] ∧
    "/data//abs.g.vcf" ∉ (gatk_genotype_gvcfs ⟨fun p => p⟩ "/tmp"
        [("/abs.g.vcf", "fid")] "r" "i" "d" none "10.0" "30.0" false).command := by
  refine ⟨by decide, by decide⟩

/-- C3 (amended): for every gvcfs dictionary none of whose sample identifiers
begins with a slash, annotation list, threshold renderings and unsafe flag,
the GenotypeGVCFs command is the fixed prefix, one `-A` pair per annotation in
list order, one `--variant /data/<uuid>` pair per sample, and the `-U
ALLOW_SEQ_DICT_INCOMPATIBILITY` suffix exactly when the unsafe flag is set. -/
theorem C3_genotype_gvcfs_command (fs : FileStore) (work_dir : String)
    (gvcfs : List (String × String)) (ref fai ref_dict : String)
    (annotations : Option (List String)) (emit_conf call_conf : String)
    (unsafe_mode : Bool)
    (h : ∀ k ∈ dict_keys gvcfs, ¬ k.data.head? = some '/') :
    (gatk_genotype_gvcfs fs work_dir gvcfs ref fai ref_dict annotations
        emit_conf call_conf unsafe_mode).command =
      ["-T", "GenotypeGVCFs", "-R", "/data/genome.fa", "--out", "genotyped.vcf",
       "-stand_emit_conf", emit_conf, "-stand_call_conf", call_conf]
      ++ ((annotations.getD []).map (fun a => ["-A", a])).flatten
      ++ ((dict_keys gvcfs).map (fun uuid => ["--variant", "/data/" ++ uuid])).flatten
      ++ (if unsafe_mode then ["-U", "ALLOW_SEQ_DICT_INCOMPATIBILITY"] else []) := by
  have hmap : (dict_keys gvcfs).map (fun uuid => ["--variant", os_path_join "/data" uuid])
      = (dict_keys gvcfs).map (fun uuid => ["--variant", "/data/" ++ uuid]) := by
    apply List.map_congr_left
    intro a ha
    rw [os_path_join_data_slash a (h a ha)]
  simp only [gatk_genotype_gvcfs]
  rw [hmap]
  cases annotations with
  | none => rfl
  | some anns => rfl

/-- Witness for C3 (amended) at a concrete input: two samples, two
annotations, unsafe mode on. -/
theorem C3_genotype_gvcfs_command_witness :
    (gatk_genotype_gvcfs ⟨fun p => p⟩ "/tmp" [("s1", "f1"), ("s2", "f2")] "r" "i" "d"
        (some ["QD", "FS"]) "10.0" "30.0" true).command =
      ["-T", "GenotypeGVCFs", "-R", "/data/genome.fa", "--out", "genotyped.vcf",
       "-stand_emit_conf", "10.0", "-stand_call_conf", "30.0",
       "-A", "QD", "-A", "FS",
       "--variant", "/data/s1", "--variant", "/data/s2",
       "-U", "ALLOW_SEQ_DICT_INCOMPATIBILITY"] := by
  rw [C3_genotype_gvcfs_command ⟨fun p => p⟩ "/tmp" [("s1", "f1"), ("s2", "f2")]
    "r" "i" "d" (some ["QD", "FS"]) "10.0" "30.0" true (by decide)]
  rfl

/-- C4: whenever `run_oncotator` builds a command, it is the fixed positional
grammar `-i VCF -o VCF --db-dir <db> input.vcf annotated.vcf hg19`; the input
filename, output filename and genome build are constants independent of the
inputs. -/
theorem C4_oncotator_command (fs : FileStore) (work_dir : String)
    (vcf_id oncotator_db : String) (tar_members : Option (List String)) :
    (run_oncotator fs work_dir vcf_id oncotator_db tar_members).map
        OncotatorResult.command =
      (run_oncotator fs work_dir vcf_id oncotator_db tar_members).map
        (fun r => ["-i", "VCF", "-o", "VCF", "--db-dir", r.db_dir,
                   "input.vcf", "annotated.vcf", "hg19"]) := by
  cases tar_members with
  | none => rfl
  | some members =>
    cases members with
    | nil => rfl
    | cons m rest => rfl

/-- C6: each task function returns the file-store identifier of its output
file: `gatk_genotype_gvcfs` returns the identifier the store assigns to
`genotyped.vcf` in its working directory, and `run_oncotator` (whenever it
completes) the identifier assigned to `annotated.vcf`. -/
theorem C6_outputs_registered (fs : FileStore) (work_dir : String)
    (gvcfs : List (String × String)) (ref fai ref_dict : String)
    (annotations : Option (List String)) (emit_conf call_conf : String)
    (unsafe_mode : Bool) (vcf_id oncotator_db : String)
    (tar_members : Option (List String)) :
    (gatk_genotype_gvcfs fs work_dir gvcfs ref fai ref_dict annotations
        emit_conf call_conf unsafe_mode).ret =
      fs.writeGlobalFile (os_path_join work_dir "genotyped.vcf") ∧
    (run_oncotator fs work_dir vcf_id oncotator_db tar_members).map
        OncotatorResult.ret =
      (run_oncotator fs work_dir vcf_id oncotator_db tar_members).map
        (fun _ => fs.writeGlobalFile (os_path_join work_dir "annotated.vcf")) := by
  refine ⟨rfl, ?_⟩
  cases tar_members with
  | none => rfl
  | some members =>
    cases members with
    | nil => rfl
    | cons m rest => rfl

/-- C9: sample identifiers share one namespace with the reserved input names:
if the gvcfs keys avoid `genome.fa`, `genome.fa.fai` and `genome.dict`, all
three reference files are staged under their names; a gvcfs entry whose key
equals one of those names silently replaces the reference file entry with the
sample's gvcf. -/
theorem C9_staging_namespace (fs : FileStore) (work_dir : String)
    (gvcfs : List (String × String)) (ref fai ref_dict : String)
    (annotations : Option (List String)) (emit_conf call_conf : String)
    (unsafe_mode : Bool) :
    ((∀ k ∈ dict_keys gvcfs,
        k ≠ "genome.fa" ∧ k ≠ "genome.fa.fai" ∧ k ≠ "genome.dict") →
      dict_get (gatk_genotype_gvcfs fs work_dir gvcfs ref fai ref_dict annotations
          emit_conf call_conf unsafe_mode).staged "genome.fa" = some ref ∧
      dict_get (gatk_genotype_gvcfs fs work_dir gvcfs ref fai ref_dict annotations
          emit_conf call_conf unsafe_mode).staged "genome.fa.fai" = some fai ∧
      dict_get (gatk_genotype_gvcfs fs work_dir gvcfs ref fai ref_dict annotations
          emit_conf call_conf unsafe_mode).staged "genome.dict" = some ref_dict) ∧
    (∀ k g, (dict_keys gvcfs).Nodup → (k, g) ∈ gvcfs →
      (k = "genome.fa" ∨ k = "genome.fa.fai" ∨ k = "genome.dict") →
      dict_get (gatk_genotype_gvcfs fs work_dir gvcfs ref fai ref_dict annotations
          emit_conf call_conf unsafe_mode).staged k = some g) := by
  have hst : (gatk_genotype_gvcfs fs work_dir gvcfs ref fai ref_dict annotations
      emit_conf call_conf unsafe_mode).staged =
      dict_update [("genome.fa", ref), ("genome.fa.fai", fai), ("genome.dict", ref_dict)]
        gvcfs := rfl
  constructor
  · intro h
    have hfa : "genome.fa" ∉ dict_keys gvcfs := fun hc => (h "genome.fa" hc).1 rfl
    have hfai : "genome.fa.fai" ∉ dict_keys gvcfs :=
      fun hc => (h "genome.fa.fai" hc).2.1 rfl
    have hdict : "genome.dict" ∉ dict_keys gvcfs :=
      fun hc => (h "genome.dict" hc).2.2 rfl
    refine ⟨?_, ?_, ?_⟩
    · rw [hst, dict_get_dict_update_not_mem gvcfs _ _ hfa]; rfl
    · rw [hst, dict_get_dict_update_not_mem gvcfs _ _ hfai]; rfl
    · rw [hst, dict_get_dict_update_not_mem gvcfs _ _ hdict]; rfl
  · intro k g hnd hm _
    rw [hst]
    exact dict_get_dict_update_mem gvcfs _ k g hnd hm

/-- Witness for C9 at concrete inputs: a fresh sample name leaves the staged
reference in place, while the sample name `genome.fa` replaces it. -/
theorem C9_staging_namespace_witness :
    dict_get (gatk_genotype_gvcfs ⟨fun p => p⟩ "/tmp" [("sample1", "g1")] "r" "i" "d"
        none "10.0" "30.0" false).staged "genome.fa" = some "r" ∧
    dict_get (gatk_genotype_gvcfs ⟨fun p => p⟩ "/tmp" [("genome.fa", "g2")] "r" "i" "d"
        none "10.0" "30.0" false).staged "genome.fa" = some "g2" :=
  ⟨((C9_staging_namespace ⟨fun p => p⟩ "/tmp" [("sample1", "g1")] "r" "i" "d"
      none "10.0" "30.0" false).1 (by decide)).1,
   (C9_staging_namespace ⟨fun p => p⟩ "/tmp" [("genome.fa", "g2")] "r" "i" "d"
      none "10.0" "30.0" false).2 "genome.fa" "g2" (by decide) (by decide)
     (Or.inl rfl)⟩

/-- C10: when the downloaded Oncotator database is a tar archive, `--db-dir`
is resolved to the name of the archive's first member; otherwise it is the
downloaded file's own path in the working directory. -/
theorem C10_oncotator_db_resolution (fs : FileStore) (work_dir : String)
    (vcf_id oncotator_db m : String) (rest : List String) :
    (run_oncotator fs work_dir vcf_id oncotator_db (some (m :: rest))).map
        OncotatorResult.db_dir = some m ∧
    (run_oncotator fs work_dir vcf_id oncotator_db none).map
        OncotatorResult.db_dir = some (os_path_join work_dir "oncotator_db") :=
  ⟨rfl, rfl⟩

/-- C8: `hard_filter_pipeline` returns a single value — the combined
(merged SNP and INDEL) VCF produced by the CombineVariants job — not a pair of
separate SNP and INDEL results as its docstring states. -/
theorem C8_returns_combined_vcf (uuid : String) (vcf_id : FileID)
    (config : HFConfig) (res : HFResolution) :
    (hard_filter_pipeline uuid vcf_id config res).ret = res.combine_vcfs_rv :=
  rfl

end ToilScripts
